import Mathlib

/-!
Verification development for the quick-mart repository
(RecoEngine-featurestore api-service).

Shallow embedding of:
* `feature_config.py` — `FEATURE_MAPPING`, `CATEGORICAL_MAPPINGS`, `CATEGORICAL_INDICES`;
* `model_predictor.py` — `ChurnPredictor.prepare_features` / `predict_churn`;
* `agent/store_helper.py` — `store_user_features` / `retrieve_all_user_features`;
* `nudge_engine.py` — `NUDGE_RULES`, `NudgeEngine.find_matching_rule`;
* `agent/reco_state.py` — `DISCOUNT_TIERS`, `get_discount_for_risk`;
* `agent/reco_graph.py` — `vector_search_products_node`, `rank_and_discount_node`;
* `agent/product_indexer.py` — `search_similar_products`.

Python floats are modelled as exact rationals (`ℚ`); all arithmetic in the
modelled code is order comparison, +, *, min/max and 2-decimal rounding, so
`ℚ` is adequate.  Python dicts are modelled as association lists in which a
later binding shadows an earlier one (`{**a, **b}` becomes `a ++ b`), and
`None` by `Option` or the `Val.null` constructor.  The XGBoost model itself
is an opaque parameter `model : (Fin 36 → ℚ) → ℚ` giving the positive-class
probability for a prepared feature vector.
-/

/- Core marks the `Rat` field operations irreducible for the elaborator,
which blocks `decide` on concrete rational arithmetic; the kernel unfolds
them regardless, so restoring semireducibility is sound and lets concrete
executions of the embedded code be settled by `decide`. -/
set_option allowUnsafeReducibility true
attribute [local semireducible] Rat.add Rat.mul Rat.div Rat.inv Rat.sub Rat.neg

/-- A JSON-ish scalar value stored in a feature dictionary: a number, a
string, or Python `None`. -/
inductive Val where
  | num (q : ℚ)
  | str (s : String)
  | null
deriving DecidableEq, Repr

/-- A Python dict modelled as an association list; a later binding for the
same key shadows an earlier one. -/
abbrev Dict := List (String × Val)

/-- Dict lookup: the last binding for the key wins (Python dict semantics
when duplicate keys arise from merges). -/
def dictGet (d : Dict) (k : String) : Option Val :=
  (d.reverse.find? (fun kv => kv.1 == k)).map (·.2)

/-- `FEATURE_MAPPING` from `feature_config.py`: input feature name →
model-vector index (the vector has 36 slots, `FEATURE_COLUMNS`). -/
def FEATURE_MAPPING : List (String × Fin 36) :=
  [("acc_age_days", 0), ("member_dur", 1), ("days_last_login", 7), ("days_last_purch", 8),
   ("sess_7d", 9), ("sess_30d", 10), ("avg_sess_dur", 11), ("ctr_10_sess", 12),
   ("cart_abandon", 13), ("wishlist_ratio", 14), ("content_engage", 15),
   ("avg_order_val", 16), ("orders_6m", 17), ("purch_freq_90d", 18), ("last_hv_purch", 19),
   ("refund_rate", 20), ("discount_dep", 22), ("push_open_rate", 23), ("email_ctr", 24),
   ("inapp_ctr", 25), ("promo_resp_time", 26), ("tickets_90d", 28), ("avg_ticket_res", 29),
   ("csat_score", 30), ("refund_req", 31), ("curr_sess_clk", 32), ("checkout_time", 33),
   ("cart_no_buy", 34), ("bounce_flag", 35)]

/-- `CATEGORICAL_MAPPINGS` with the matching `CATEGORICAL_INDICES`
(`feature_config.py`): categorical feature name, its encoding table, and the
slot it is written to. -/
def CATEGORICAL_MAPPINGS : List (String × List (String × ℚ) × Fin 36) :=
  [("loyalty_tier", [("bronze", 1), ("silver", 2), ("gold", 3), ("platinum", 4)], 2),
   ("geo_location", [("US-CA", 1), ("US-NY", 2), ("US-TX", 3), ("UK", 4), ("DE", 5)], 3),
   ("device_type", [("mobile", 1), ("desktop", 2), ("tablet", 3)], 4),
   ("pref_payment", [("credit", 1), ("debit", 2), ("paypal", 3), ("crypto", 4)], 5),
   ("lang_pref", [("en", 1), ("es", 2), ("fr", 3), ("de", 4)], 6),
   ("sub_pay_status", [("active", 1), ("inactive", 2), ("cancelled", 3)], 21),
   ("retention_resp", [("positive", 1), ("negative", 2), ("neutral", 3)], 27)]

/-- Encode a categorical value: `mapping.get(value, 0)`.  A non-string value
(or an unknown string) encodes as 0. -/
def encodeCategorical (mapping : List (String × ℚ)) : Val → ℚ
  | Val.str s => ((mapping.find? (fun kv => kv.1 == s)).map (·.2)).getD 0
  | _ => 0

/-- `ChurnPredictor.prepare_features` (`model_predictor.py` lines 83-104):
start from a zero vector, write every numeric feature present in
`FEATURE_MAPPING` to its slot, then write encoded categorical features. -/
def zeroVec : Fin 36 → ℚ := fun _ => 0

/-- One step of the numeric-feature loop of `prepare_features`. -/
def numericStep (v : Fin 36 → ℚ) (kv : String × Val) : Fin 36 → ℚ :=
  match (FEATURE_MAPPING.find? (fun fm => fm.1 == kv.1)).map (·.2), kv.2 with
  | some idx, Val.num q => Function.update v idx q
  | _, _ => v

/-- One step of the categorical-feature loop of `prepare_features`. -/
def categoricalStep (features : Dict) (v : Fin 36 → ℚ)
    (cat : String × List (String × ℚ) × Fin 36) : Fin 36 → ℚ :=
  match dictGet features cat.1 with
  | some Val.null => v
  | some val => Function.update v cat.2.2 (encodeCategorical cat.2.1 val)
  | none => v

def prepare_features (features : Dict) : Fin 36 → ℚ :=
  CATEGORICAL_MAPPINGS.foldl (categoricalStep features) (features.foldl numericStep zeroVec)

/-- The `abandon_count`-dependent boost and cap of
`ChurnPredictor.predict_churn` (lines 117-132): only applied when
`abandon_count > 0`, and only then capped at 0.95. -/
def applyBoost (n p : ℚ) : ℚ :=
  if 0 < n then
    min (19/20) (p + (if n = 1 then (1/10) else if n = 2 then (3/20) else (1/5)))
  else p

/-- Risk-segment thresholds of `predict_churn` (lines 134-142). -/
def riskSegment (p : ℚ) : String :=
  if (4/5) ≤ p then "critical"
  else if (3/5) ≤ p then "high"
  else if (2/5) ≤ p then "medium"
  else "low"

/-- Confidence score of `predict_churn` (line 148). -/
def confidenceScore (p : ℚ) : ℚ :=
  min (19/20) (max (3/5) (|p - (1/2)| * 2))

/-- The fields of the `predict_churn` result that the claims are about.
The SHAP explanation fields (`churn_reasons`, `feature_importance`,
`shap_values`) are not modelled. -/
structure ChurnResult where
  churn_probability : ℚ
  risk_segment : String
  confidence_score : ℚ
deriving DecidableEq, Repr

/-- Build the result record from the boosted probability. -/
def mkChurnResult (p : ℚ) : ChurnResult :=
  { churn_probability := p, risk_segment := riskSegment p, confidence_score := confidenceScore p }

/-- `ChurnPredictor.predict_churn` (lines 106-157), with the loaded model
abstracted as `model`.  `features.get('abandon_count', 0)` followed by the
`>`/`==` comparisons raises `TypeError` in Python when the stored value is a
string or `None`; those cases return `none`. -/
def predict_churn (model : (Fin 36 → ℚ) → ℚ) (features : Dict) : Option ChurnResult :=
  match dictGet features "abandon_count" with
  | some (Val.str _) => none
  | some Val.null => none
  | some (Val.num n) => some (mkChurnResult (applyBoost n (model (prepare_features features))))
  | none => some (mkChurnResult (applyBoost 0 (model (prepare_features features))))

/-- A constant model answering 0.97 for every feature vector; its outputs
lie in [0, 1]. -/
def constModel97 : (Fin 36 → ℚ) → ℚ := fun _ => (97/100)

/-! ### Nudge rules engine (`nudge_engine.py`) -/

/-- One nudge rule: id, `churn_score_range = [lo, hi]`, and the rule's
reason list.  The attached nudge actions play no part in rule matching and
are not modelled. -/
structure NudgeRule where
  rule_id : String
  lo : ℚ
  hi : ℚ
  churn_reasons : List String
deriving DecidableEq, Repr

def highRiskInactiveRule : NudgeRule :=
  { rule_id := "high_risk_inactive_user", lo := 7/10, hi := 1,
    churn_reasons := ["Inactive", "No purchase", "High risk factor"] }

def lowRiskEngagementRule : NudgeRule :=
  { rule_id := "low_risk_engagement", lo := 0, hi := 2/5, churn_reasons := [] }

def mediumRiskCartRule : NudgeRule :=
  { rule_id := "medium_risk_cart_abandonment", lo := 3/10, hi := 3/5,
    churn_reasons := ["cart", "abandon"] }

/-- `NUDGE_RULES` (`nudge_engine.py` lines 33-147), in source order. -/
def NUDGE_RULES : List NudgeRule :=
  [highRiskInactiveRule,
   lowRiskEngagementRule,
   mediumRiskCartRule,
   { rule_id := "rule_1", lo := 3/5, hi := 4/5, churn_reasons := ["INACTIVITY", "DELIVERY_ISSUES"] },
   { rule_id := "rule_2", lo := 4/5, hi := 1, churn_reasons := ["CART_ABANDONMENT"] },
   { rule_id := "rule_3", lo := 7/10, hi := 9/10, churn_reasons := ["LOW_ENGAGEMENT"] },
   { rule_id := "rule_4", lo := 3/5, hi := 3/4, churn_reasons := ["PRICE_SENSITIVITY"] },
   { rule_id := "rule_5", lo := 17/20, hi := 1, churn_reasons := ["PAYMENT_FAILURE"] },
   { rule_id := "rule_6", lo := 13/20, hi := 4/5, churn_reasons := ["PRODUCT_AVAILABILITY"] },
   { rule_id := "rule_7", lo := 7/10, hi := 9/10, churn_reasons := ["INACTIVITY"] },
   { rule_id := "rule_8", lo := 3/5, hi := 4/5, churn_reasons := ["CART_ABANDONMENT", "LOW_ENGAGEMENT"] },
   { rule_id := "rule_9", lo := 3/4, hi := 19/20, churn_reasons := ["DELIVERY_ISSUES", "PRICE_SENSITIVITY"] },
   { rule_id := "rule_10", lo := 4/5, hi := 1, churn_reasons := ["PAYMENT_FAILURE", "CART_ABANDONMENT"] }]

/- Python string operations, modelled over the character list of a `String`
(the core position-based `String` functions are not kernel-reducible; these
structural versions are, and agree with Python on the ASCII data this code
handles). -/

/-- ASCII lowercasing of one character, as `str.lower()` does on ASCII. -/
def charLower (c : Char) : Char :=
  if 65 ≤ c.toNat ∧ c.toNat ≤ 90 then Char.ofNat (c.toNat + 32) else c

/-- `s.lower()`. -/
def lowerStr (s : String) : String := ⟨s.data.map charLower⟩

def strContainsAux (needle : List Char) : List Char → Bool
  | [] => needle.isEmpty
  | c :: rest => needle.isPrefixOf (c :: rest) || strContainsAux needle rest

/-- Python `needle in hay` substring test. -/
def strContains (hay needle : String) : Bool :=
  strContainsAux needle.data hay.data

/-- `s.startswith(p)`. -/
def strBeginsWith (s p : String) : Bool := p.data.isPrefixOf s.data

/-- `s.split(sep)` for a one-character separator. -/
def splitOnChar (sep : Char) : List Char → List (List Char)
  | [] => [[]]
  | c :: rest =>
    let r := splitOnChar sep rest
    if c = sep then [] :: r
    else match r with
      | [] => [[c]]
      | h :: t => (c :: h) :: t

def digitVal (c : Char) : Option ℕ :=
  if 48 ≤ c.toNat ∧ c.toNat ≤ 57 then some (c.toNat - 48) else none

def parseNatAux : ℕ → List Char → Option ℕ
  | acc, [] => some acc
  | acc, c :: r => match digitVal c with
    | some d => parseNatAux (acc * 10 + d) r
    | none => none

/-- `int(s)` restricted to unsigned digit strings, the only shape the rule
ids produce. -/
def parseNat : List Char → Option ℕ
  | [] => none
  | l => parseNatAux 0 l

/-- The synonym groups of `NudgeEngine._reasons_semantically_match`
(lines 201-220); the dict keys are never used by the code. -/
def semanticGroups : List (List String) :=
  [["inactive", "inactivity", "no login", "not active"],
   ["no purchase", "no recent purchase", "purchase", "buying"],
   ["high risk", "risk factor", "risk"],
   ["cart abandon", "abandonment", "cart"],
   ["engagement", "low engagement", "not engaged"],
   ["delivery", "shipping", "fulfillment"],
   ["price", "cost", "expensive", "pricing"],
   ["payment", "billing", "card", "transaction"]]

/-- `_reasons_semantically_match` on already-lowercased reasons. -/
def reasonsSemanticallyMatch (ruleReason churnReason : String) : Bool :=
  semanticGroups.any (fun g =>
    g.any (fun syn => strContains ruleReason syn) &&
    g.any (fun syn => strContains churnReason syn))

/-- The per-pair reason test of `find_matching_rule` (lines 178-189):
case-insensitive substring containment in either direction, or a semantic
match. -/
def reasonMatches (ruleReason churnReason : String) : Bool :=
  let r := lowerStr ruleReason
  let c := lowerStr churnReason
  strContains c r || strContains r c || reasonsSemanticallyMatch r c

/-- The sort key of `find_matching_rule` (line 160):
`int(rule_id.split("_")[1])` for ids starting with `rule_`, else 999. -/
def rulePriority (r : NudgeRule) : ℕ :=
  if strBeginsWith r.rule_id "rule_" then
    (parseNat ((splitOnChar '_' r.rule_id.data).getD 1 [])).getD 0
  else 999

/-- `sorted(rules, key=..., reverse=True)`: stable descending sort, so an
element goes before another iff its key is ≥ the other's, ties keeping
source order. -/
def ruleOrder : NudgeRule → NudgeRule → Prop :=
  fun a b => rulePriority b ≤ rulePriority a

instance : DecidableRel ruleOrder :=
  fun a b => inferInstanceAs (Decidable (rulePriority b ≤ rulePriority a))

def sortRules (rules : List NudgeRule) : List NudgeRule :=
  rules.insertionSort ruleOrder

/-- The loop body condition of `find_matching_rule` for one rule: score in
range, and either the rule's reason list is empty (catch-all) or some rule
reason matches some input reason. -/
def ruleApplies (p : ℚ) (reasons : List String) (r : NudgeRule) : Bool :=
  decide (r.lo ≤ p ∧ p ≤ r.hi) &&
    (r.churn_reasons.isEmpty ||
      r.churn_reasons.any (fun rr => reasons.any (fun cr => reasonMatches rr cr)))

/-- `NudgeEngine.find_matching_rule` (lines 156-199): first rule, in sorted
order, whose range contains `p` and whose reasons match. -/
def find_matching_rule (rules : List NudgeRule) (p : ℚ) (reasons : List String) :
    Option NudgeRule :=
  (sortRules rules).find? (ruleApplies p reasons)

/-! ### Discount tiers and the ranking node (`agent/reco_state.py`, `agent/reco_graph.py`) -/

/-- `round(x, 2)`: rounding to two decimals.  Python rounds half to even on
binary floats; no claim in this development depends on the behaviour at an
exact half-cent tie, so Mathlib's `round` is used. -/
def round2 (x : ℚ) : ℚ := (round (x * 100) : ℤ) / 100

/-- `DISCOUNT_TIERS` (`reco_state.py` lines 100-121) as
`(min_discount, max_discount)`; `DISCOUNT_TIERS.get(churn_risk, low_risk)`
falls back to the low-risk tier for unknown keys. -/
def discountTier (churn_risk : String) : ℕ × ℕ :=
  if churn_risk = "low_risk" then (0, 5)
  else if churn_risk = "medium_risk" then (5, 10)
  else if churn_risk = "high_risk" then (15, 20)
  else if churn_risk = "critical" then (20, 30)
  else (0, 5)

/-- The midpoint `(min_discount + max_discount) // 2` used by
`get_discount_for_risk`. -/
def tierPct (churn_risk : String) : ℕ :=
  ((discountTier churn_risk).1 + (discountTier churn_risk).2) / 2

/-- `get_discount_for_risk` (`reco_state.py` lines 124-144): returns
`(discounted_price, discount_percentage)`; the price passes through
unchanged when the midpoint is 0. -/
def get_discount_for_risk (churn_risk : String) (base_price : ℚ) : ℚ × ℕ :=
  let discount_pct := tierPct churn_risk
  if 0 < discount_pct then
    (round2 (base_price * (1 - (discount_pct : ℚ) / 100)), discount_pct)
  else (base_price, 0)

/-- A candidate product dict as consumed by the recommendation nodes;
`Option` marks fields that `product.get(...)` may find missing.  Fields the
claims never inspect (name, description, image, review counts) are not
modelled. -/
structure Product where
  product_id : Option String
  price : Option ℚ
  rating : Option ℚ
  similarity_score : Option ℚ
  category : Option String
  brand : Option String
deriving DecidableEq, Repr

/-- A `RecommendedProduct` as built by `rank_and_discount_node`
(`reco_graph.py` lines 297-312), restricted to the fields the claims
inspect. -/
structure Reco where
  product_id : String
  price : ℚ
  discounted_price : ℚ
  discount_percentage : ℕ
  rating : ℚ
  similarity_score : ℚ
  recommendation_reason : String
deriving DecidableEq, Repr

/-- Python `x in s` for an optional value against a set of strings:
`None` is in no set of strings. -/
def optMem (o : Option String) (l : List String) : Bool :=
  match o with
  | some c => l.contains c
  | none => false

/-- The recommendation-reason ladder of `rank_and_discount_node`
(lines 283-295): first applicable phrase, else "Recommended for you". -/
def recoReason (cartCats cartBrands : List String) (p : Product) : String :=
  let brandName := p.brand.getD ""
  let l1 : List String :=
    (if optMem p.category cartCats then
      ["Similar to items in your cart"] else []) ++
    (if optMem p.brand cartBrands then
      [s!"From {brandName}, a brand you like"] else []) ++
    (if 7/10 < p.similarity_score.getD 0 then ["Highly relevant to your interests"] else []) ++
    (if 9/2 ≤ p.rating.getD 0 then ["Top-rated by customers"] else [])
  (l1.getD 0 "Recommended for you")

/-- Build one recommendation from a candidate product whose price was found
positive. -/
def mkReco (churn_risk : String) (cartCats cartBrands : List String) (p : Product) : Reco :=
  let price := p.price.getD 0
  let dd := get_discount_for_risk churn_risk price
  { product_id := p.product_id.getD ""
    price := price
    discounted_price := dd.1
    discount_percentage := dd.2
    rating := p.rating.getD 0
    similarity_score := p.similarity_score.getD 0
    recommendation_reason := recoReason cartCats cartBrands p }

/-- The ranking score `similarity_score * 0.6 + rating / 5 * 0.4`
(`reco_graph.py` line 318). -/
def recoScore (r : Reco) : ℚ :=
  r.similarity_score * (3/5) + r.rating / 5 * (2/5)

/-- Descending ranking order: `a` may come before `b` iff `a`'s score is at
least `b`'s. -/
def recoOrder : Reco → Reco → Prop := fun a b => recoScore b ≤ recoScore a

instance : DecidableRel recoOrder :=
  fun a b => inferInstanceAs (Decidable (recoScore b ≤ recoScore a))

instance : IsTotal Reco recoOrder :=
  ⟨fun a b => (le_total (recoScore b) (recoScore a)).imp id id⟩

instance : IsTrans Reco recoOrder :=
  ⟨fun _ _ _ hab hbc => le_trans hbc hab⟩

/-- The cart item fields that `vector_search_products_node` and
`rank_and_discount_node` read. -/
structure CartItem where
  product_id : Option String
  category : Option String
  brand : Option String
deriving DecidableEq, Repr

/-- `set(item.get("category") for item in cart_items if item.get("category"))`:
categories present and non-empty (a duplicate-free set is not needed: only
membership is ever tested). -/
def cartCategories (cart : List CartItem) : List String :=
  cart.filterMap (fun i => match i.category with
    | some c => if c = "" then none else some c
    | none => none)

def cartBrands (cart : List CartItem) : List String :=
  cart.filterMap (fun i => match i.brand with
    | some b => if b = "" then none else some b
    | none => none)

/-- `rank_and_discount_node` (`reco_graph.py` lines 260-334): drop
candidates with `price <= 0`, discount the rest by churn-risk tier, sort by
`0.6·similarity + 0.4·(rating/5)` descending, keep the top 8. -/
def rank_and_discount (churn_risk : String) (similar_products : List Product)
    (cart_items : List CartItem) : List Reco :=
  let cc := cartCategories cart_items
  let cb := cartBrands cart_items
  let recommendations := similar_products.filterMap (fun p =>
    if 0 < p.price.getD 0 then some (mkReco churn_risk cc cb p) else none)
  (recommendations.insertionSort recoOrder).take 8

/-! ### Vector search (`agent/product_indexer.py`, `agent/reco_graph.py`) -/

/-- `search_similar_products` (`product_indexer.py` lines 165-215) applied
to the raw `(item.value, item.score)` pairs the store returns for one query:
skip results whose `product_id` is in the exclusion list (when that list is
non-empty), attach the similarity score, stop at `limit`. -/
def search_similar_products (results : List (Product × ℚ)) (lim : ℕ)
    (exclude_product_ids : List (Option String)) : List Product :=
  ((results.filter (fun ir =>
      !(!exclude_product_ids.isEmpty && exclude_product_ids.contains ir.1.product_id))).map
    (fun ir => { ir.1 with similarity_score := some ir.2 })).take lim

/-- The deduplication loop of `vector_search_products_node` (lines 224-229):
keep a product iff its `product_id` is present, non-empty, unseen, and not a
cart product id. -/
def dedupeProducts (l : List Product) (cartPids : List (Option String))
    (seen : List String) : List Product :=
  match l with
  | [] => []
  | p :: rest =>
    match p.product_id with
    | some pid =>
      if pid ≠ "" ∧ pid ∉ seen ∧ (some pid) ∉ cartPids then
        p :: dedupeProducts rest cartPids (pid :: seen)
      else dedupeProducts rest cartPids seen
    | none => dedupeProducts rest cartPids seen

/-- Descending similarity order for the candidate sort (line 232). -/
def simOrder : Product → Product → Prop :=
  fun a b => b.similarity_score.getD 0 ≤ a.similarity_score.getD 0

instance : DecidableRel simOrder :=
  fun a b => inferInstanceAs (Decidable (b.similarity_score.getD 0 ≤ a.similarity_score.getD 0))

/-- `vector_search_products_node` (`reco_graph.py` lines 155-257), with the
store's raw per-query answers abstracted as `raw` (the query strings built
from the cart only determine what the store returns, which is arbitrary
here): run up to three searches excluding cart product ids, concatenate,
dedupe (again excluding cart ids), sort by similarity descending, keep the
top 15. -/
def vector_search_products (cart_items : List CartItem)
    (raw : List (List (Product × ℚ))) : List Product :=
  let cartPids := cart_items.map (·.product_id)
  let allResults := ((raw.take 3).map
    (fun results => search_similar_products results 10 cartPids)).flatten
  ((dedupeProducts allResults cartPids []).insertionSort simOrder).take 15

/-! ### Feature store (`agent/store_helper.py`) -/

/-- `FEATURE_TYPES` (`store_helper.py` line 28). -/
def FEATURE_TYPES : List String :=
  ["profile", "behavior", "transactional", "engagement", "support", "realtime"]

/-- The store keyed by `(feature_type, user_id)`; `none` means no record. -/
abbrev FeatureStore := String → String → Option Dict

def emptyStore : FeatureStore := fun _ _ => none

/-- Strip the metadata keys, as both the writer and the reader do. -/
def stripMeta (d : Dict) : Dict :=
  d.filter (fun kv => !(kv.1 == "timestamp" || kv.1 == "feature_type"))

/-- `store_user_features` (`store_helper.py` lines 98-138): merge the new
partial map over the stripped existing record (new keys override under the
last-binding-wins dict semantics) and stamp fresh metadata; `now` stands for
`datetime.utcnow().isoformat()` at write time. -/
def store_user_features (st : FeatureStore) (user_id : String) (features : Dict)
    (feature_type : String) (now : String) : FeatureStore :=
  let existing := (st feature_type user_id).getD []
  let merged := stripMeta existing ++ features
  let value := merged ++ [("timestamp", Val.str now), ("feature_type", Val.str feature_type)]
  fun ft u => if ft = feature_type ∧ u = user_id then some value else st ft u

/-- The freshness update of `retrieve_all_user_features` (lines 173-175):
`if item_timestamp and (not feature_freshness or item_timestamp > feature_freshness)`.
String comparison is lexicographic, as in Python. -/
def updateFreshness (fresh : Option String) (ts : String) : Option String :=
  match fresh with
  | none => if ts ≠ "" then some ts else none
  | some f => if ts ≠ "" ∧ (f = "" ∨ f < ts) then some ts else some f

/-- The timestamp read `item.value.get("timestamp", "")`.  (The writer only
ever stores string timestamps; a non-string value reads as its Python
truthiness would reject it downstream only for `""`, and is not produced by
the modelled writer, so it is read as `""`.) -/
def recordTimestamp (d : Dict) : String :=
  match dictGet d "timestamp" with
  | some (Val.str s) => s
  | _ => ""

/-- One feature family's contribution inside the loop of
`retrieve_all_user_features` (lines 160-177): skip missing or empty
records (`if item and item.value`), else merge the stripped features into
the accumulator and update the freshness. -/
def retrieveStep (st : FeatureStore) (user_id : String) (acc : Dict × Option String)
    (feature_type : String) : Dict × Option String :=
  match st feature_type user_id with
  | none => acc
  | some value =>
    if value = [] then acc
    else (acc.1 ++ stripMeta value, updateFreshness acc.2 (recordTimestamp value))

/-- `retrieve_all_user_features` (lines 141-184): fold the six feature
families in order; `now` stands for the `datetime.utcnow().isoformat()`
fallback when no record carried a timestamp. -/
def retrieve_all_user_features (st : FeatureStore) (user_id : String) (now : String) :
    Dict × String :=
  let res := FEATURE_TYPES.foldl (retrieveStep st user_id) ([], none)
  (res.1, res.2.getD now)

/-! ### Concrete inputs and outputs used by witnesses and counterexamples -/

/-- A constant model answering 0.5; its outputs lie in [0, 1]. -/
def constModelHalf : (Fin 36 → ℚ) → ℚ := fun _ => (1/2)

/-- The `predict_churn` output for `constModelHalf` on the empty feature
map. -/
def halfResult : ChurnResult := ⟨1/2, "medium", 3/5⟩

/-- The `predict_churn` output for `constModel97` with no (or zero)
`abandon_count`: the raw 0.97 passes through uncapped. -/
def uncapped97Result : ChurnResult := ⟨97/100, "critical", 47/50⟩

/-- The `predict_churn` output for `constModel97` with `abandon_count = 1`:
`min(0.95, 1.07) = 0.95`. -/
def capped95Result : ChurnResult := ⟨19/20, "critical", 9/10⟩

/-- `constModelHalf` boosted with `abandon_count = 1`. -/
def boosted1Result : ChurnResult := ⟨3/5, "high", 3/5⟩

/-- `constModelHalf` boosted with `abandon_count = 3`. -/
def boosted3Result : ChurnResult := ⟨7/10, "high", 3/5⟩

/-- A candidate product with a tiny positive price: 0.001. -/
def tinyProduct : Product :=
  { product_id := some "p1", price := some (1/1000), rating := some 4,
    similarity_score := some (1/2), category := none, brand := none }

/-- What `rank_and_discount` makes of `tinyProduct` at low risk:
`round(0.001 · 0.98, 2) = 0`. -/
def tinyReco : Reco := ⟨"p1", 1/1000, 0, 2, 4, 1/2, "Recommended for you"⟩

/-- A cart item used by witnesses. -/
def cartItemP1 : CartItem := ⟨some "p1", some "electronics", some "BrandA"⟩

/-- A store search hit distinct from the cart item. -/
def productP2 : Product :=
  { product_id := some "p2", price := some 500, rating := some 4,
    similarity_score := none, category := some "electronics", brand := some "BrandA" }

/-- `rank_and_discount "low_risk"` output for `productP2` fed directly (no
search, so similarity defaults to 0). -/
def recoSample : Reco := ⟨"p2", 500, 490, 2, 4, 0, "Recommended for you"⟩

/-- The recommendation produced for `productP2` through the full
search-dedupe-rank pipeline with `cartItemP1` in the cart. -/
def recoP2 : Reco := ⟨"p2", 500, 490, 2, 4, 9/10, "Similar to items in your cart"⟩

/-! ### Helper lemmas -/

/-- Appending a binding makes it the value seen by lookup. -/
theorem dictGet_append_last (m : Dict) (k : String) (v : Val) :
    dictGet (m ++ [(k, v)]) k = some v := by
  simp [dictGet, List.reverse_append]

/-- Appending a binding for a different key does not change a lookup. -/
theorem dictGet_append_ne (m : Dict) (k k' : String) (v : Val) (h : k' ≠ k) :
    dictGet (m ++ [(k', v)]) k = dictGet m k := by
  simp [dictGet, List.reverse_append, List.find?_cons, h]

/-- `abandon_count` has no slot in `FEATURE_MAPPING` and is not a
categorical feature, so appending it leaves the prepared vector unchanged
(`feature_config.py` lines 20-29). -/
theorem prepare_features_append_abandon (m : Dict) (v : Val) :
    prepare_features (m ++ [("abandon_count", v)]) = prepare_features m := by
  have hnum : FEATURE_MAPPING.find? (fun fm => fm.1 == "abandon_count") = none := by decide
  have hfold : (m ++ [("abandon_count", v)]).foldl numericStep zeroVec =
      m.foldl numericStep zeroVec := by
    rw [List.foldl_append]
    simp [numericStep, hnum]
  have hcats : ∀ (cats : List (String × List (String × ℚ) × Fin 36)),
      (∀ c ∈ cats, c.1 ≠ "abandon_count") →
      ∀ w, cats.foldl (categoricalStep (m ++ [("abandon_count", v)])) w =
        cats.foldl (categoricalStep m) w := by
    intro cats
    induction cats with
    | nil => intro _ w; rfl
    | cons c rest ih =>
      intro hne w
      have hc : dictGet (m ++ [("abandon_count", v)]) c.1 = dictGet m c.1 :=
        dictGet_append_ne m c.1 "abandon_count" v (fun h => hne c (by simp) h.symm)
      simp only [List.foldl_cons]
      rw [ih (fun x hx => hne x (by simp [hx]))]
      congr 1
      simp [categoricalStep, hc]
  unfold prepare_features
  rw [hfold, hcats CATEGORICAL_MAPPINGS (by decide)]

/-- Bounds for the boost-and-cap step, given a model output in [0, 1]. -/
theorem applyBoost_bounds (n p : ℚ) (h0 : 0 ≤ p) (h1 : p ≤ 1) :
    0 ≤ applyBoost n p ∧ applyBoost n p ≤ 1 := by
  unfold applyBoost
  split
  · have hb : (0:ℚ) ≤ (if n = 1 then (1/10 : ℚ) else if n = 2 then 3/20 else 1/5) := by
      split_ifs <;> norm_num
    constructor
    · exact le_min (by norm_num) (add_nonneg h0 hb)
    · exact le_trans (min_le_left _ _) (by norm_num)
  · exact ⟨h0, h1⟩

/-- Every result of `predict_churn` is `mkChurnResult` of some probability. -/
theorem predict_churn_some (model : (Fin 36 → ℚ) → ℚ) (m : Dict) (r : ChurnResult)
    (hr : predict_churn model m = some r) :
    ∃ p, r = mkChurnResult p := by
  unfold predict_churn at hr
  split at hr
  · exact absurd hr (by simp)
  · exact absurd hr (by simp)
  · exact ⟨_, (Option.some.inj hr).symm⟩
  · exact ⟨_, (Option.some.inj hr).symm⟩

/-! ### C1 -/

/-- C1 as stated is false: with `abandon_count` absent, the 0.95 cap of
`predict_churn` is never applied, so a model output of 0.97 (a value in
[0, 1]) yields `churn_probability = 0.97 > 0.95`. -/
theorem churn_cap_counterexample :
    (0:ℚ) ≤ 97/100 ∧ (97:ℚ)/100 ≤ 1 ∧
    predict_churn constModel97 [] = some uncapped97Result ∧
    ¬ (uncapped97Result.churn_probability ≤ 19/20) := by decide

/-- C1 (amended): for a model whose outputs lie in [0, 1], every
`churn_probability` returned by `predict_churn` lies in [0, 1] (the 0.95 cap
only binds when the abandonment boost fires). -/
theorem churn_probability_unit_interval (model : (Fin 36 → ℚ) → ℚ) (m : Dict)
    (r : ChurnResult)
    (h0 : ∀ v, 0 ≤ model v) (h1 : ∀ v, model v ≤ 1)
    (hr : predict_churn model m = some r) :
    0 ≤ r.churn_probability ∧ r.churn_probability ≤ 1 := by
  unfold predict_churn at hr
  split at hr
  · exact absurd hr (by simp)
  · exact absurd hr (by simp)
  · obtain rfl := (Option.some.inj hr).symm
    exact applyBoost_bounds _ _ (h0 _) (h1 _)
  · obtain rfl := (Option.some.inj hr).symm
    exact applyBoost_bounds _ _ (h0 _) (h1 _)

theorem churn_probability_unit_interval_witness :
    0 ≤ halfResult.churn_probability ∧ halfResult.churn_probability ≤ 1 :=
  churn_probability_unit_interval constModelHalf [] halfResult
    (fun _ => by norm_num [constModelHalf]) (fun _ => by norm_num [constModelHalf])
    (by decide)

/-! ### C3 -/

/-- C3: writing `p` for the returned (post-boost) probability, the returned
segment is `critical` iff `p ≥ 0.8`, `high` iff `0.6 ≤ p < 0.8`, `medium`
iff `0.4 ≤ p < 0.6`, and `low` iff `p < 0.4`. -/
theorem risk_segment_boundaries (model : (Fin 36 → ℚ) → ℚ) (m : Dict) (r : ChurnResult)
    (hr : predict_churn model m = some r) :
    (r.risk_segment = "critical" ↔ 4/5 ≤ r.churn_probability) ∧
    (r.risk_segment = "high" ↔ 3/5 ≤ r.churn_probability ∧ r.churn_probability < 4/5) ∧
    (r.risk_segment = "medium" ↔ 2/5 ≤ r.churn_probability ∧ r.churn_probability < 3/5) ∧
    (r.risk_segment = "low" ↔ r.churn_probability < 2/5) := by
  obtain ⟨p, rfl⟩ := predict_churn_some model m r hr
  simp only [mkChurnResult]
  unfold riskSegment
  split_ifs with hc hh hm
  · refine ⟨iff_of_true rfl hc, iff_of_false (by decide) ?_,
      iff_of_false (by decide) ?_, iff_of_false (by decide) ?_⟩
    · rintro ⟨-, h⟩; linarith
    · rintro ⟨-, h⟩; linarith
    · intro h; linarith
  · refine ⟨iff_of_false (by decide) hc, iff_of_true rfl ⟨hh, not_le.mp hc⟩,
      iff_of_false (by decide) ?_, iff_of_false (by decide) ?_⟩
    · rintro ⟨-, h⟩; linarith
    · intro h; linarith
  · refine ⟨iff_of_false (by decide) hc, iff_of_false (by decide) ?_,
      iff_of_true rfl ⟨hm, not_le.mp hh⟩, iff_of_false (by decide) ?_⟩
    · rintro ⟨h, -⟩; exact hh h
    · intro h; linarith
  · refine ⟨iff_of_false (by decide) hc, iff_of_false (by decide) ?_,
      iff_of_false (by decide) ?_, iff_of_true rfl (not_le.mp hm)⟩
    · rintro ⟨h, -⟩; exact hh h
    · rintro ⟨h, -⟩; exact hm h

theorem risk_segment_boundaries_witness :
    (halfResult.risk_segment = "critical" ↔ 4/5 ≤ halfResult.churn_probability) ∧
    (halfResult.risk_segment = "high" ↔
      3/5 ≤ halfResult.churn_probability ∧ halfResult.churn_probability < 4/5) ∧
    (halfResult.risk_segment = "medium" ↔
      2/5 ≤ halfResult.churn_probability ∧ halfResult.churn_probability < 3/5) ∧
    (halfResult.risk_segment = "low" ↔ halfResult.churn_probability < 2/5) :=
  risk_segment_boundaries constModelHalf [] halfResult (by decide)

/-! ### C8 -/

/-- C8: with `abandon_count` absent or 0, the returned probability is the
model's positive-class output exactly; no cap is applied on this path. -/
theorem unboosted_probability_eq_model_output (model : (Fin 36 → ℚ) → ℚ) (m : Dict)
    (r : ChurnResult)
    (h : dictGet m "abandon_count" = none ∨ dictGet m "abandon_count" = some (Val.num 0))
    (hr : predict_churn model m = some r) :
    r.churn_probability = model (prepare_features m) := by
  unfold predict_churn at hr
  rcases h with h | h <;> rw [h] at hr <;>
    · obtain rfl := (Option.some.inj hr).symm
      simp [mkChurnResult, applyBoost]

theorem unboosted_probability_witness :
    uncapped97Result.churn_probability = constModel97 (prepare_features []) :=
  unboosted_probability_eq_model_output constModel97 [] uncapped97Result
    (Or.inl (by decide)) (by decide)

/-! ### C6 -/

/-- C6 as stated is false at the cap edge: with a model output of 0.97
(identical for both maps, since `abandon_count` has no vector slot), raising
`abandon_count` from 0 to 1 lowers the returned probability from 0.97 to
`min(0.95, 1.07) = 0.95`. -/
theorem boost_monotone_counterexample :
    predict_churn constModel97 [("abandon_count", Val.num 0)] = some uncapped97Result ∧
    predict_churn constModel97 [("abandon_count", Val.num 1)] = some capped95Result ∧
    capped95Result.churn_probability < uncapped97Result.churn_probability := by decide

/-- Monotonicity of the boost-and-cap step over the abandonment counts that
occur, provided the raw model output does not already exceed the cap (or
both predictions are boosted). -/
theorem applyBoost_mono (p n1 n2 : ℚ)
    (h1 : n1 = 0 ∨ n1 = 1 ∨ n1 = 2 ∨ n1 = 3)
    (h2 : n2 = 0 ∨ n2 = 1 ∨ n2 = 2 ∨ n2 = 3)
    (hle : n1 ≤ n2) (hcap : p ≤ 19/20 ∨ 0 < n1) :
    applyBoost n1 p ≤ applyBoost n2 p := by
  have hb0 : applyBoost 0 p = p := by norm_num [applyBoost]
  have hb1 : applyBoost 1 p = min (19/20) (p + 1/10) := by norm_num [applyBoost]
  have hb2 : applyBoost 2 p = min (19/20) (p + 3/20) := by norm_num [applyBoost]
  have hb3 : applyBoost 3 p = min (19/20) (p + 1/5) := by norm_num [applyBoost]
  rcases h1 with rfl | rfl | rfl | rfl <;> rcases h2 with rfl | rfl | rfl | rfl <;>
    simp only [hb0, hb1, hb2, hb3] <;>
    first
      | exact le_rfl
      | (exfalso; norm_num at hle; done)
      | (have hple : p ≤ 19/20 := hcap.resolve_right (by norm_num)
         exact le_min hple (by linarith))
      | exact min_le_min le_rfl (by linarith)

/-- C6 (amended): with otherwise-equal features and `n1 ≤ n2` drawn from
{0,1,2,3}, the returned probability is weakly increasing in `abandon_count`
provided the underlying model output is at most 0.95 or both counts are
positive — without that proviso the cap edge refutes the claim
(`boost_monotone_counterexample`). -/
theorem churn_monotone_in_abandon_count (model : (Fin 36 → ℚ) → ℚ) (m : Dict)
    (n1 n2 : ℚ) (r1 r2 : ChurnResult)
    (h1 : n1 = 0 ∨ n1 = 1 ∨ n1 = 2 ∨ n1 = 3)
    (h2 : n2 = 0 ∨ n2 = 1 ∨ n2 = 2 ∨ n2 = 3)
    (hle : n1 ≤ n2)
    (hcap : model (prepare_features m) ≤ 19/20 ∨ 0 < n1)
    (hr1 : predict_churn model (m ++ [("abandon_count", Val.num n1)]) = some r1)
    (hr2 : predict_churn model (m ++ [("abandon_count", Val.num n2)]) = some r2) :
    r1.churn_probability ≤ r2.churn_probability := by
  unfold predict_churn at hr1 hr2
  simp only [dictGet_append_last, prepare_features_append_abandon] at hr1 hr2
  obtain rfl := (Option.some.inj hr1).symm
  obtain rfl := (Option.some.inj hr2).symm
  exact applyBoost_mono _ _ _ h1 h2 hle hcap

theorem churn_monotone_witness :
    boosted1Result.churn_probability ≤ boosted3Result.churn_probability :=
  churn_monotone_in_abandon_count constModelHalf [] 1 3 boosted1Result boosted3Result
    (by norm_num) (by norm_num) (by norm_num)
    (Or.inl (by norm_num [constModelHalf]))
    (by decide) (by decide)

/-! ### C7 -/

/-- C7: a rule whose `churn_reasons` list is empty matches any input
reasons within its score range — when such a rule is the first in-range rule
in the sorted order, `find_matching_rule` returns it whatever the input
reasons are. -/
theorem catch_all_rule_matches (rules : List NudgeRule) (p : ℚ) (reasons : List String)
    (pre post : List NudgeRule) (r : NudgeRule)
    (hs : sortRules rules = pre ++ r :: post)
    (hpre : ∀ x ∈ pre, ¬(x.lo ≤ p ∧ p ≤ x.hi))
    (hempty : r.churn_reasons = [])
    (hlo : r.lo ≤ p) (hhi : p ≤ r.hi) :
    find_matching_rule rules p reasons = some r := by
  unfold find_matching_rule
  rw [hs, List.find?_append]
  have h1 : pre.find? (ruleApplies p reasons) = none := by
    rw [List.find?_eq_none]
    intro x hx
    simp only [ruleApplies, Bool.and_eq_true, decide_eq_true_eq]
    rintro ⟨hr, -⟩
    exact hpre x hx hr
  have h2 : ruleApplies p reasons r = true := by
    simp [ruleApplies, hempty, hlo, hhi]
  rw [h1, List.find?_cons_of_pos _ h2]
  rfl

theorem catch_all_rule_witness :
    find_matching_rule NUDGE_RULES (1/5) ["Low engagement in recent week"] =
      some lowRiskEngagementRule :=
  catch_all_rule_matches NUDGE_RULES (1/5) ["Low engagement in recent week"]
    [highRiskInactiveRule] ((sortRules NUDGE_RULES).drop 2) lowRiskEngagementRule
    (by decide) (by decide) rfl (by norm_num [lowRiskEngagementRule])
    (by norm_num [lowRiskEngagementRule])

/-! ### C9 -/

/-- C9: for any probability in [0, 0.4] and any input reasons,
`find_matching_rule` on `NUDGE_RULES` returns the `low_risk_engagement`
catch-all (the three non-`rule_` rules carry sort key 999 and come first in
source order), so `medium_risk_cart_abandonment` can only be returned for a
probability in (0.4, 0.6]. -/
theorem low_risk_catch_all_shadows (p : ℚ) (reasons : List String) :
    (0 ≤ p → p ≤ 2/5 →
      find_matching_rule NUDGE_RULES p reasons = some lowRiskEngagementRule) ∧
    (find_matching_rule NUDGE_RULES p reasons = some mediumRiskCartRule →
      2/5 < p ∧ p ≤ 3/5) := by
  have hsort : sortRules NUDGE_RULES =
      highRiskInactiveRule :: lowRiskEngagementRule :: (sortRules NUDGE_RULES).drop 2 := by
    decide
  have hlow : 0 ≤ p → p ≤ 2/5 →
      find_matching_rule NUDGE_RULES p reasons = some lowRiskEngagementRule := by
    intro h0 h4
    unfold find_matching_rule
    rw [hsort]
    have hneg : ¬ ruleApplies p reasons highRiskInactiveRule = true := by
      simp only [ruleApplies, highRiskInactiveRule, Bool.and_eq_true, decide_eq_true_eq]
      rintro ⟨⟨h7, -⟩, -⟩
      linarith
    have hpos : ruleApplies p reasons lowRiskEngagementRule = true := by
      simp [ruleApplies, lowRiskEngagementRule, h0, h4]
    rw [List.find?_cons_of_neg _ hneg, List.find?_cons_of_pos _ hpos]
  refine ⟨hlow, ?_⟩
  intro hm
  have happ : ruleApplies p reasons mediumRiskCartRule = true := by
    have hm2 := hm
    unfold find_matching_rule at hm2
    exact List.find?_some hm2
  have hrange : (3:ℚ)/10 ≤ p ∧ p ≤ 3/5 := by
    simp only [ruleApplies, mediumRiskCartRule, Bool.and_eq_true, decide_eq_true_eq] at happ
    exact happ.1
  constructor
  · by_contra hgt
    push_neg at hgt
    have h0 : (0:ℚ) ≤ p := le_trans (by norm_num) hrange.1
    rw [hlow h0 hgt] at hm
    exact absurd (Option.some.inj hm) (by decide)
  · exact hrange.2

theorem low_risk_catch_all_witness :
    0 ≤ (1:ℚ)/5 ∧ (1:ℚ)/5 ≤ 2/5 ∧
    find_matching_rule NUDGE_RULES (1/5) ["High cart abandonment rate"] =
      some lowRiskEngagementRule :=
  ⟨by norm_num, by norm_num,
    (low_risk_catch_all_shadows (1/5) ["High cart abandonment rate"]).1
      (by norm_num) (by norm_num)⟩

/-! ### Ranking-node helper lemmas -/

/-- Everything `rank_and_discount` emits is `mkReco` of a candidate whose
price was found positive. -/
theorem rank_and_discount_mem (churn_risk : String) (prods : List Product)
    (cart : List CartItem) (r : Reco)
    (h : r ∈ rank_and_discount churn_risk prods cart) :
    ∃ p ∈ prods, 0 < p.price.getD 0 ∧
      r = mkReco churn_risk (cartCategories cart) (cartBrands cart) p := by
  simp only [rank_and_discount] at h
  have h1 := (List.take_sublist 8 _).subset h
  rw [List.mem_insertionSort] at h1
  obtain ⟨p, hp, heq⟩ := List.mem_filterMap.mp h1
  split at heq
  · exact ⟨p, hp, by assumption, (Option.some.inj heq).symm⟩
  · exact absurd heq (by simp)

/-- The output of `rank_and_discount` is sorted for `recoOrder` and has at
most 8 entries. -/
theorem rank_and_discount_sorted_len (churn_risk : String) (prods : List Product)
    (cart : List CartItem) :
    (rank_and_discount churn_risk prods cart).Pairwise recoOrder ∧
    (rank_and_discount churn_risk prods cart).length ≤ 8 := by
  constructor
  · simp only [rank_and_discount]
    exact List.Pairwise.sublist (List.take_sublist 8 _)
      (List.sorted_insertionSort recoOrder _)
  · simp only [rank_and_discount, List.length_take]
    exact min_le_left _ _

/-- Two-decimal rounding preserves non-negativity. -/
theorem round2_nonneg (x : ℚ) (hx : 0 ≤ x) : 0 ≤ round2 x := by
  unfold round2
  have h : (0:ℤ) ≤ round (x * 100) := by
    rw [round_eq]
    exact Int.floor_nonneg.mpr (by linarith)
  have h2 : (0:ℚ) ≤ ((round (x * 100) : ℤ) : ℚ) := by exact_mod_cast h
  positivity

/-- The tier midpoint is always one of 2, 7, 17, 25 (unknown risk strings
fall back to the low-risk tier). -/
theorem tierPct_cases (churn_risk : String) :
    tierPct churn_risk = 2 ∨ tierPct churn_risk = 7 ∨
    tierPct churn_risk = 17 ∨ tierPct churn_risk = 25 := by
  unfold tierPct discountTier
  split_ifs <;> norm_num

/-! ### C4 -/

/-- C4: for each risk segment, every emitted recommendation carries
`discounted_price = round(price · (1 − tier_pct/100), 2)` and
`discount_percentage = tier_pct` with the tier midpoints 2/7/17/25; a price
passes through unchanged whenever the midpoint is 0; the output is sorted
descending by `0.6·similarity + 0.4·(rating/5)` and at most 8 entries are
kept. -/
theorem discount_tier_law (churn_risk : String) (pct : ℕ)
    (hrp : (churn_risk, pct) ∈
      [("low_risk", 2), ("medium_risk", 7), ("high_risk", 17), ("critical", 25)])
    (prods : List Product) (cart : List CartItem) :
    (∀ r ∈ rank_and_discount churn_risk prods cart,
        r.discounted_price = round2 (r.price * (1 - (pct : ℚ) / 100)) ∧
        r.discount_percentage = pct) ∧
    (rank_and_discount churn_risk prods cart).Pairwise recoOrder ∧
    (rank_and_discount churn_risk prods cart).length ≤ 8 ∧
    (∀ (risk : String) (price : ℚ),
        (get_discount_for_risk risk price).2 = 0 →
        (get_discount_for_risk risk price).1 = price) := by
  refine ⟨?_, (rank_and_discount_sorted_len churn_risk prods cart).1,
    (rank_and_discount_sorted_len churn_risk prods cart).2, ?_⟩
  · intro r hr
    obtain ⟨p, hp, hpos, rfl⟩ := rank_and_discount_mem churn_risk prods cart r hr
    simp only [List.mem_cons, Prod.mk.injEq, List.not_mem_nil, or_false] at hrp
    rcases hrp with ⟨rfl, rfl⟩ | ⟨rfl, rfl⟩ | ⟨rfl, rfl⟩ | ⟨rfl, rfl⟩
    · have ht : tierPct "low_risk" = 2 := by decide
      constructor <;> norm_num [mkReco, get_discount_for_risk, ht]
    · have ht : tierPct "medium_risk" = 7 := by decide
      constructor <;> norm_num [mkReco, get_discount_for_risk, ht]
    · have ht : tierPct "high_risk" = 17 := by decide
      constructor <;> norm_num [mkReco, get_discount_for_risk, ht]
    · have ht : tierPct "critical" = 25 := by decide
      constructor <;> norm_num [mkReco, get_discount_for_risk, ht]
  · intro risk price h
    by_cases h0 : 0 < tierPct risk
    · exfalso
      simp only [get_discount_for_risk, if_pos h0] at h
      omega
    · simp only [get_discount_for_risk, if_neg h0]

theorem discount_tier_law_witness :
    (∀ r ∈ rank_and_discount "low_risk" [productP2] [],
        r.discounted_price = round2 (r.price * (1 - (2 : ℚ) / 100)) ∧
        r.discount_percentage = 2) ∧
    (rank_and_discount "low_risk" [productP2] []).Pairwise recoOrder ∧
    (rank_and_discount "low_risk" [productP2] []).length ≤ 8 ∧
    (∀ (risk : String) (price : ℚ),
        (get_discount_for_risk risk price).2 = 0 →
        (get_discount_for_risk risk price).1 = price) :=
  discount_tier_law "low_risk" 2 (by decide) [productP2] []

/-! ### C10 -/

/-- C10 as stated is false in its `discounted_price > 0` part: a candidate
with price 0.001 survives the positive-price filter, but
`round(0.001 · 0.98, 2) = 0`, so its discounted price is 0. -/
theorem discounted_price_positive_counterexample :
    rank_and_discount "low_risk" [tinyProduct] [] = [tinyReco] ∧
    0 < tinyReco.price ∧ ¬ (0 < tinyReco.discounted_price) := by decide

/-- C10 (amended): every emitted recommendation has `price > 0` (candidates
whose price is missing, zero or negative are dropped) and
`discounted_price ≥ 0` — not `> 0`, which fails for tiny prices
(`discounted_price_positive_counterexample`). -/
theorem reco_price_positive (churn_risk : String) (prods : List Product)
    (cart : List CartItem) (r : Reco)
    (hr : r ∈ rank_and_discount churn_risk prods cart) :
    0 < r.price ∧ 0 ≤ r.discounted_price := by
  obtain ⟨p, hp, hpos, rfl⟩ := rank_and_discount_mem churn_risk prods cart r hr
  refine ⟨hpos, ?_⟩
  have hcases := tierPct_cases churn_risk
  have key : ∀ pct : ℕ, tierPct churn_risk = pct → 0 < pct → pct ≤ 25 →
      0 ≤ (mkReco churn_risk (cartCategories cart) (cartBrands cart) p).discounted_price := by
    intro pct hpct h0 h25
    have hqle : ((pct : ℚ)) ≤ 25 := by exact_mod_cast h25
    simp only [mkReco, get_discount_for_risk, hpct, if_pos h0]
    apply round2_nonneg
    have h1 : (0:ℚ) ≤ 1 - (pct : ℚ) / 100 := by linarith
    exact mul_nonneg (le_of_lt hpos) h1
  rcases hcases with h | h | h | h
  · exact key 2 h (by norm_num) (by norm_num)
  · exact key 7 h (by norm_num) (by norm_num)
  · exact key 17 h (by norm_num) (by norm_num)
  · exact key 25 h (by norm_num) (by norm_num)

theorem reco_price_positive_witness :
    0 < recoSample.price ∧ 0 ≤ recoSample.discounted_price :=
  reco_price_positive "low_risk" [productP2] [] recoSample (by decide)

/-! ### C5 -/

/-- Everything the dedup loop keeps has a present, non-empty product id
that is not a cart product id. -/
theorem mem_dedupeProducts (l : List Product) (cartPids : List (Option String))
    (seen : List String) (p : Product) (h : p ∈ dedupeProducts l cartPids seen) :
    ∃ pid, p.product_id = some pid ∧ pid ≠ "" ∧ (some pid) ∉ cartPids := by
  induction l generalizing seen with
  | nil => cases h
  | cons q rest ih =>
    rcases hq : q.product_id with _ | pid
    · simp only [dedupeProducts, hq] at h
      exact ih _ h
    · simp only [dedupeProducts, hq] at h
      split at h
      · rcases List.mem_cons.mp h with rfl | h2
        · rename_i hcond
          exact ⟨pid, hq, hcond.1, hcond.2.2⟩
        · exact ih _ h2
      · exact ih _ h

/-- Every product surviving `vector_search_products` carries a non-empty id
outside the cart's product-id set. -/
theorem mem_vector_search (cart : List CartItem) (raw : List (List (Product × ℚ)))
    (p : Product) (h : p ∈ vector_search_products cart raw) :
    ∃ pid, p.product_id = some pid ∧ pid ≠ "" ∧
      (some pid) ∉ cart.map (·.product_id) := by
  simp only [vector_search_products] at h
  have h1 := (List.take_sublist 15 _).subset h
  rw [List.mem_insertionSort] at h1
  exact mem_dedupeProducts _ _ _ _ h1

/-- C5: no recommendation produced by the vector-search / rank-and-discount
pipeline has the `product_id` of any input cart item (cart ids are excluded
at search time and again during deduplication). -/
theorem recommendations_exclude_cart (churn_risk : String) (cart : List CartItem)
    (raw : List (List (Product × ℚ))) (r : Reco)
    (hr : r ∈ rank_and_discount churn_risk (vector_search_products cart raw) cart) :
    ∀ item ∈ cart, item.product_id ≠ some r.product_id := by
  obtain ⟨p, hp, hpos, rfl⟩ :=
    rank_and_discount_mem churn_risk (vector_search_products cart raw) cart r hr
  obtain ⟨pid, hpid, hne, hnotin⟩ := mem_vector_search cart raw p hp
  intro item hitem heq
  have hrid : (mkReco churn_risk (cartCategories cart) (cartBrands cart) p).product_id
      = pid := by
    simp [mkReco, hpid]
  rw [hrid] at heq
  exact hnotin (List.mem_map.mpr ⟨item, hitem, heq⟩)

theorem recommendations_exclude_cart_witness :
    cartItemP1.product_id ≠ some recoP2.product_id :=
  recommendations_exclude_cart "low_risk" [cartItemP1] [[(productP2, 9/10)]] recoP2
    (by decide) cartItemP1 (by decide)

/-! ### C2 -/

/-- C2: for a user with no prior records, ingesting `{a:1}` and then
`{b:2}` into the same feature family leaves both `a = 1` and `b = 2`
retrievable, and `retrieve_all_user_features` reports the second write's
timestamp as the feature freshness. -/
theorem ingest_twice_merge_freshness (st : FeatureStore) (u ft t1 t2 now : String)
    (hft : ft ∈ FEATURE_TYPES) (hu : ∀ g, st g u = none) (ht2 : t2 ≠ "") :
    dictGet (retrieve_all_user_features
        (store_user_features (store_user_features st u [("a", Val.num 1)] ft t1)
          u [("b", Val.num 2)] ft t2) u now).1 "a" = some (Val.num 1) ∧
    dictGet (retrieve_all_user_features
        (store_user_features (store_user_features st u [("a", Val.num 1)] ft t1)
          u [("b", Val.num 2)] ft t2) u now).1 "b" = some (Val.num 2) ∧
    (retrieve_all_user_features
        (store_user_features (store_user_features st u [("a", Val.num 1)] ft t1)
          u [("b", Val.num 2)] ft t2) u now).2 = t2 := by
  fin_cases hft <;>
    simp [store_user_features, retrieve_all_user_features, retrieveStep,
      FEATURE_TYPES, stripMeta, updateFreshness, recordTimestamp, dictGet, hu, ht2]

theorem ingest_twice_merge_freshness_witness :
    dictGet (retrieve_all_user_features
        (store_user_features
          (store_user_features emptyStore "user_005" [("a", Val.num 1)] "profile"
            "2024-01-01T00:00:00")
          "user_005" [("b", Val.num 2)] "profile" "2024-01-02T00:00:00")
        "user_005" "2024-01-03T00:00:00").1 "a" = some (Val.num 1) ∧
    dictGet (retrieve_all_user_features
        (store_user_features
          (store_user_features emptyStore "user_005" [("a", Val.num 1)] "profile"
            "2024-01-01T00:00:00")
          "user_005" [("b", Val.num 2)] "profile" "2024-01-02T00:00:00")
        "user_005" "2024-01-03T00:00:00").1 "b" = some (Val.num 2) ∧
    (retrieve_all_user_features
        (store_user_features
          (store_user_features emptyStore "user_005" [("a", Val.num 1)] "profile"
            "2024-01-01T00:00:00")
          "user_005" [("b", Val.num 2)] "profile" "2024-01-02T00:00:00")
        "user_005" "2024-01-03T00:00:00").2 = "2024-01-02T00:00:00" :=
  ingest_twice_merge_freshness emptyStore "user_005" "profile"
    "2024-01-01T00:00:00" "2024-01-02T00:00:00" "2024-01-03T00:00:00"
    (by decide) (fun _ => rfl) (by decide)
